import Mathlib

/-!
Verification of the Converter-Pro format-conversion engine.

The definitions below are a shallow embedding of the repository's three
source files:

* `src/components/file-converter.tsx` — format classifier
  (`supportedFormats`, `formatCategories`, `getFileExtension`,
  `getAvailableOutputFormats`) and the client-side conversion routing
  (`handleConvert`).
* `src/app/api/convert/route.ts` — the server dispatcher (`POST`) and the
  conversion pipelines (`convertPdfToImage`, `convertImageToPdf`,
  `convertTxtToPdf`).

JavaScript strings are modelled as Lean `String` / `List Char`; JavaScript
numbers are modelled as `ℚ` (the computations involved stay well inside the
range where IEEE doubles behave like exact arithmetic on these values);
image byte buffers are `List UInt8`.  Effectful pipeline bodies are
modelled by their observable geometry (pages, draw calls, encodings).
-/

namespace ConverterPro

/-! ### Format classifier (`src/components/file-converter.tsx`) -/

/-- The four format families of the `supportedFormats` object. -/
inductive Family where
  | document
  | presentation
  | image
  | other
deriving DecidableEq

/-- The `supportedFormats` object, lines 22–27 of `file-converter.tsx`. -/
def supportedFormats : Family → List String
  | .document => ["pdf", "docx", "doc", "txt", "rtf"]
  | .presentation => ["pptx", "ppt", "odp"]
  | .image => ["jpg", "jpeg", "png", "gif", "bmp", "webp", "svg"]
  | .other => ["csv", "xlsx", "xls"]

/-- The `formatCategories` object, lines 29–48 of `file-converter.tsx`:
a fixed mapping from format identifier to family; an unknown key gives
`undefined`, modelled as `none`. -/
def formatCategories (fmt : String) : Option Family :=
  if fmt = "pdf" then some .document
  else if fmt = "docx" then some .document
  else if fmt = "doc" then some .document
  else if fmt = "txt" then some .document
  else if fmt = "rtf" then some .document
  else if fmt = "pptx" then some .presentation
  else if fmt = "ppt" then some .presentation
  else if fmt = "odp" then some .presentation
  else if fmt = "jpg" then some .image
  else if fmt = "jpeg" then some .image
  else if fmt = "png" then some .image
  else if fmt = "gif" then some .image
  else if fmt = "bmp" then some .image
  else if fmt = "webp" then some .image
  else if fmt = "svg" then some .image
  else if fmt = "csv" then some .other
  else if fmt = "xlsx" then some .other
  else if fmt = "xls" then some .other
  else none

/-- JavaScript `str.split(sep)` for a one-character separator, on char
lists.  `"".split(".")` is `[""]`, matching the `[[]]` base case. -/
def splitChars (sep : Char) : List Char → List (List Char)
  | [] => [[]]
  | c :: cs =>
    if c = sep then [] :: splitChars sep cs
    else
      match splitChars sep cs with
      | [] => [[c]]
      | t :: ts => (c :: t) :: ts

/-- JavaScript `str.toLowerCase()` on char lists (basic-latin letters,
which is all the format identifiers use). -/
def jsToLower (l : List Char) : List Char := l.map Char.toLower

/-- The expression `filename.split(".").pop()?.toLowerCase() || ""` used
both by `getFileExtension` (`file-converter.tsx` line 85) and by the
server handler (`route.ts` line 19).  `pop()` on the never-empty result
of `split` is its last element. -/
def extensionChars (name : List Char) : List Char :=
  jsToLower ((splitChars '.' name).getLastD [])

/-- `getFileExtension`, lines 84–86 of `file-converter.tsx`. -/
def getFileExtension (filename : String) : String :=
  String.mk (extensionChars filename.toList)

/-- `getAvailableOutputFormats`, lines 88–124 of `file-converter.tsx`,
as a function of the first file's extension (the surrounding component
returns `[]` when no file is uploaded). -/
def getAvailableOutputFormats (inputFormat : String) : List String :=
  match formatCategories inputFormat with
  | none => []
  | some inputCategory =>
    if inputCategory = .image then
      (supportedFormats .image).filter (fun format => format ≠ inputFormat) ++ ["pdf"]
    else if inputFormat = "pdf" then
      supportedFormats .image ++ (supportedFormats .document).filter (fun format => format ≠ "pdf")
    else if inputCategory = .document then
      (supportedFormats .document).filter (fun format => format ≠ inputFormat) ++ ["pdf"]
    else
      (supportedFormats inputCategory).filter (fun format => format ≠ inputFormat)

/-! ### Client-side conversion routing (`handleConvert`, lines 222–277) -/

/-- What the client does with one file: convert locally in the browser
(canvas/jsPDF), or POST it to `/api/convert`. -/
inductive ClientAction where
  | localImageToPdf
  | localImageFormat (targetFormat : String)
  | delegateToServer
deriving DecidableEq

/-- The branching of `handleConvert`, lines 239–261 of
`file-converter.tsx`: only `png`, `jpg` and `jpeg` inputs are converted
locally; everything else goes over the network to the server route. -/
def clientRoute (inputFormat outputFormat : String) : ClientAction :=
  if inputFormat = "png" ∨ inputFormat = "jpg" ∨ inputFormat = "jpeg" then
    if outputFormat = "pdf" then .localImageToPdf
    else .localImageFormat outputFormat
  else .delegateToServer

/-! ### Server dispatcher (`POST`, `src/app/api/convert/route.ts` lines 6–82) -/

/-- The six conversion pipelines of `route.ts`. -/
inductive Pipeline where
  | pdfToImage
  | imageToPdf
  | imageToImage
  | docxToPdf
  | docxToTxt
  | txtToPdf
deriving DecidableEq

/-- The if/else chain of `POST`, lines 28–67 of `route.ts`, in source
order; `none` is the final unsupported-conversion branch. -/
def dispatch (inputFormat outputFormat : String) : Option Pipeline :=
  if inputFormat = "pdf" ∧ outputFormat ∈ ["jpg", "jpeg", "png"] then
    some .pdfToImage
  else if inputFormat ∈ ["jpg", "jpeg", "png", "gif", "webp"] ∧ outputFormat = "pdf" then
    some .imageToPdf
  else if inputFormat ∈ ["jpg", "jpeg", "png", "gif", "webp", "bmp"] ∧
      outputFormat ∈ ["jpg", "jpeg", "png", "webp"] then
    some .imageToImage
  else if inputFormat = "docx" ∧ outputFormat = "pdf" then
    some .docxToPdf
  else if inputFormat = "docx" ∧ outputFormat = "txt" then
    some .docxToTxt
  else if inputFormat = "txt" ∧ outputFormat = "pdf" then
    some .txtToPdf
  else
    none

/-- The error payload of the unsupported-conversion branch, lines 61–66
of `route.ts` (appends grouped to the right so the two format names are
syntactically visible). -/
def unsupportedMessage (inputFormat outputFormat : String) : String :=
  "Conversion from " ++ (inputFormat.toUpper ++ (" to " ++ (outputFormat.toUpper ++
    " is not supported yet. Currently supported: Image ↔ Image, Image ↔ PDF, DOCX → PDF/TXT, TXT → PDF")))

/-- Outcome of a `POST` request: a file response, a 400 JSON error, or
the 500 JSON error of the surrounding `catch`. -/
inductive ServerResponse where
  | success (pipeline : Pipeline)
  | clientError (message : String)
  | serverError (message : String)
deriving DecidableEq

/-- HTTP status of each response shape (`route.ts` lines 65 and 80). -/
def ServerResponse.status : ServerResponse → Nat
  | .success _ => 200
  | .clientError _ => 400
  | .serverError _ => 500

/-- The dispatch-and-run part of `POST` (lines 19–81): pick a pipeline
from the format pair; a thrown pipeline error is caught and turned into
the 500 response of line 80; no matching pair gives the 400 response of
lines 61–66.  `run` abstracts the effectful pipeline body. -/
def handleRequest (inputFormat outputFormat : String)
    (run : Pipeline → Except String Unit) : ServerResponse :=
  match dispatch inputFormat outputFormat with
  | some pipeline =>
    match run pipeline with
    | .ok _ => .success pipeline
    | .error e => .serverError ("Conversion failed: " ++ e)
  | none => .clientError (unsupportedMessage inputFormat outputFormat)

/-- `msg` contains `sub` as a contiguous substring. -/
def mentions (msg sub : String) : Prop :=
  ∃ pre post, msg = pre ++ (sub ++ post)

/-! ### `convertPdfToImage` (`route.ts` lines 84–114) -/

/-- Output encodings produced by the sharp calls of `route.ts`. -/
inductive ImageEncoding where
  | jpeg (quality : Nat)
  | png
  | webp (quality : Nat)
deriving DecidableEq

/-- An encoded raster image, described by its observable parameters. -/
structure EncodedImage where
  width : Nat
  height : Nat
  background : Nat × Nat × Nat
  encoding : ImageEncoding
deriving DecidableEq

/-- `convertPdfToImage`, lines 84–114 of `route.ts`: the input buffer is
never read; a 595×842 white image is created and encoded per the
`switch` (jpg/jpeg at quality 90, png otherwise). -/
def convertPdfToImage (pdfBuffer : List UInt8) (outputFormat : String) : EncodedImage :=
  { width := 595
    height := 842
    background := (255, 255, 255)
    encoding :=
      if outputFormat = "jpg" ∨ outputFormat = "jpeg" then .jpeg 90
      else if outputFormat = "png" then .png
      else .png }

/-! ### `convertImageToPdf` (`route.ts` lines 116–166) -/

/-- Sharp metadata of the input image, as used by `convertImageToPdf`. -/
structure ImageMetadata where
  width : Option ℚ
  height : Option ℚ
  format : Option String

/-- JavaScript `x || d` on an optional number: a missing (or zero, both
being falsy) value falls back to `d`. -/
def jsOr (x : Option ℚ) (d : ℚ) : ℚ :=
  match x with
  | none => d
  | some v => if v = 0 then d else v

/-- Lines 126–137 of `route.ts`: fall back to the A4 box 595×842 when
metadata is missing, then scale down uniformly when either dimension
exceeds the box. -/
def fittedSize (metaWidth metaHeight : Option ℚ) : ℚ × ℚ :=
  let maxWidth : ℚ := 595
  let maxHeight : ℚ := 842
  let width := jsOr metaWidth maxWidth
  let height := jsOr metaHeight maxHeight
  if maxWidth < width ∨ maxHeight < height then
    let scale := min (maxWidth / width) (maxHeight / height)
    (width * scale, height * scale)
  else
    (width, height)

/-- One `page.drawImage` call: position and drawn size. -/
structure ImageDraw where
  x : ℚ
  y : ℚ
  width : ℚ
  height : ℚ

/-- One page of the image-embed document. -/
structure ImagePage where
  width : ℚ
  height : ℚ
  draws : List ImageDraw

/-- The document produced by `convertImageToPdf`. -/
structure ImagePdfDoc where
  pages : List ImagePage

/-- `convertImageToPdf`, lines 116–166 of `route.ts`: one `addPage`
call sized `[width, height]` from `fittedSize`, one `drawImage` call at
`x = 0, y = 0` with that same size. -/
def convertImageToPdf (meta : ImageMetadata) : ImagePdfDoc :=
  let size := fittedSize meta.width meta.height
  { pages := [{ width := size.1
                height := size.2
                draws := [{ x := 0, y := 0, width := size.1, height := size.2 }] }] }

/-! ### `convertTxtToPdf` (`route.ts` lines 199–241) -/

/-- One `drawText` call: the drawn string, its position and font size. -/
structure TextDraw where
  text : String
  x : ℚ
  y : ℚ
  size : ℚ

/-- `fontSize = 12`, line 206 of `route.ts`. -/
def fontSize : ℚ := 12

/-- `lineHeight = fontSize * 1.2`, line 207 of `route.ts`. -/
def lineHeight : ℚ := fontSize * 1.2

/-- `margin = 50`, line 208 of `route.ts`. -/
def margin : ℚ := 50

/-- `pageWidth = 595`, line 209 of `route.ts`. -/
def pageWidth : ℚ := 595

/-- `pageHeight = 842`, line 210 of `route.ts`. -/
def pageHeight : ℚ := 842

/-- Loop state of `convertTxtToPdf`: the finished pages, the page being
filled (each page is its list of `drawText` calls), and the vertical
cursor `yPosition`. -/
structure TxtState where
  pages : List (List TextDraw)
  current : List TextDraw
  y : ℚ

/-- The loop body, lines 219–234 of `route.ts`: allocate a fresh page
when the cursor dropped below `margin + lineHeight`, draw the line (an
empty line as a single space) at `(margin, yPosition)`, decrement the
cursor. -/
def drawLine (st : TxtState) (line : String) : TxtState :=
  let st' :=
    if st.y < margin + lineHeight then
      { pages := st.pages ++ [st.current], current := [], y := pageHeight - margin }
    else st
  { st' with
    current := st'.current ++
      [{ text := if line = "" then " " else line
         x := margin
         y := st'.y
         size := fontSize }]
    y := st'.y - lineHeight }

/-- `convertTxtToPdf`, lines 199–241 of `route.ts`: split the text on
newlines, fold the loop body over the lines starting from the first
page's cursor `pageHeight - margin`, and return the pages (the page
still being filled included). -/
def convertTxtToPdf (text : String) : List (List TextDraw) :=
  let lines := (splitChars '\n' text.toList).map String.mk
  let final := lines.foldl drawLine { pages := [], current := [], y := pageHeight - margin }
  final.pages ++ [final.current]

/-- A text of `n` lines, each the single character `x`. -/
def sampleText (n : Nat) : String :=
  String.mk (List.intercalate ['\n'] (List.replicate n ['x']))

/-! ### The spec's dispatch table (§4.5) -/

/-- The image-family format identifiers. -/
def imageFamilyFormats : List String := supportedFormats .image

/-- Modelled from the spec: the dispatch table of §4.5, written from the
spec's words for refinement comparison against `dispatch` (`image*`
ranging over the image family). -/
def specDispatchTable (inputFormat outputFormat : String) : Prop :=
  (inputFormat ∈ imageFamilyFormats ∧ outputFormat ∈ ["jpg", "jpeg", "png", "webp"]) ∨
  (inputFormat ∈ imageFamilyFormats ∧ outputFormat = "pdf") ∨
  (inputFormat = "pdf" ∧ outputFormat ∈ ["jpg", "jpeg", "png"]) ∨
  (inputFormat = "docx" ∧ outputFormat = "pdf") ∨
  (inputFormat = "docx" ∧ outputFormat = "txt") ∨
  (inputFormat = "txt" ∧ outputFormat = "pdf")

instance (i o : String) : Decidable (specDispatchTable i o) := by
  unfold specDispatchTable
  infer_instance

/-! ### Helper lemmas -/

theorem filter_ne_nil_of_two {l : List String} {a b : String} (ha : a ∈ l) (hb : b ∈ l)
    (hab : a ≠ b) (fmt : String) : l.filter (fun x => x ≠ fmt) ≠ [] := by
  intro h
  rw [List.filter_eq_nil_iff] at h
  have h1 := h a ha
  have h2 := h b hb
  simp at h1 h2
  exact hab (h1.trans h2.symm)

theorem formatCategories_document_cases {fmt : String}
    (h : formatCategories fmt = some Family.document) :
    fmt = "pdf" ∨ fmt = "docx" ∨ fmt = "doc" ∨ fmt = "txt" ∨ fmt = "rtf" := by
  unfold formatCategories at h
  by_cases h1 : fmt = "pdf"
  · exact Or.inl h1
  rw [if_neg h1] at h
  by_cases h2 : fmt = "docx"
  · exact Or.inr (Or.inl h2)
  rw [if_neg h2] at h
  by_cases h3 : fmt = "doc"
  · exact Or.inr (Or.inr (Or.inl h3))
  rw [if_neg h3] at h
  by_cases h4 : fmt = "txt"
  · exact Or.inr (Or.inr (Or.inr (Or.inl h4)))
  rw [if_neg h4] at h
  by_cases h5 : fmt = "rtf"
  · exact Or.inr (Or.inr (Or.inr (Or.inr h5)))
  rw [if_neg h5] at h
  by_cases h6 : fmt = "pptx"
  · rw [if_pos h6] at h
    exact absurd (Option.some.inj h) (by decide)
  rw [if_neg h6] at h
  by_cases h7 : fmt = "ppt"
  · rw [if_pos h7] at h
    exact absurd (Option.some.inj h) (by decide)
  rw [if_neg h7] at h
  by_cases h8 : fmt = "odp"
  · rw [if_pos h8] at h
    exact absurd (Option.some.inj h) (by decide)
  rw [if_neg h8] at h
  by_cases h9 : fmt = "jpg"
  · rw [if_pos h9] at h
    exact absurd (Option.some.inj h) (by decide)
  rw [if_neg h9] at h
  by_cases h10 : fmt = "jpeg"
  · rw [if_pos h10] at h
    exact absurd (Option.some.inj h) (by decide)
  rw [if_neg h10] at h
  by_cases h11 : fmt = "png"
  · rw [if_pos h11] at h
    exact absurd (Option.some.inj h) (by decide)
  rw [if_neg h11] at h
  by_cases h12 : fmt = "gif"
  · rw [if_pos h12] at h
    exact absurd (Option.some.inj h) (by decide)
  rw [if_neg h12] at h
  by_cases h13 : fmt = "bmp"
  · rw [if_pos h13] at h
    exact absurd (Option.some.inj h) (by decide)
  rw [if_neg h13] at h
  by_cases h14 : fmt = "webp"
  · rw [if_pos h14] at h
    exact absurd (Option.some.inj h) (by decide)
  rw [if_neg h14] at h
  by_cases h15 : fmt = "svg"
  · rw [if_pos h15] at h
    exact absurd (Option.some.inj h) (by decide)
  rw [if_neg h15] at h
  by_cases h16 : fmt = "csv"
  · rw [if_pos h16] at h
    exact absurd (Option.some.inj h) (by decide)
  rw [if_neg h16] at h
  by_cases h17 : fmt = "xlsx"
  · rw [if_pos h17] at h
    exact absurd (Option.some.inj h) (by decide)
  rw [if_neg h17] at h
  by_cases h18 : fmt = "xls"
  · rw [if_pos h18] at h
    exact absurd (Option.some.inj h) (by decide)
  rw [if_neg h18] at h
  exact Option.noConfusion h

theorem gAOF_ne_nil_of_some {fmt : String} {cat : Family}
    (h : formatCategories fmt = some cat) : getAvailableOutputFormats fmt ≠ [] := by
  intro hnil
  simp only [getAvailableOutputFormats, h] at hnil
  split_ifs at hnil with hA hB hC
  · simp at hnil
  · simp [supportedFormats] at hnil
  · simp at hnil
  · cases cat with
    | image => exact hA rfl
    | document => exact hC rfl
    | presentation =>
      exact absurd hnil (filter_ne_nil_of_two (a := "pptx") (b := "ppt")
        (by decide) (by decide) (by decide) fmt)
    | other =>
      exact absurd hnil (filter_ne_nil_of_two (a := "csv") (b := "xlsx")
        (by decide) (by decide) (by decide) fmt)

theorem gAOF_eq_nil_iff (fmt : String) :
    getAvailableOutputFormats fmt = [] ↔ formatCategories fmt = none := by
  cases hcat : formatCategories fmt with
  | none => simp [getAvailableOutputFormats, hcat]
  | some cat =>
    constructor
    · intro h
      exact absurd h (gAOF_ne_nil_of_some hcat)
    · intro h
      exact Option.noConfusion h

theorem mem_image_family_of_mem_five {i : String}
    (h : i ∈ ["jpg", "jpeg", "png", "gif", "webp"]) : i ∈ imageFamilyFormats := by
  simp only [imageFamilyFormats, supportedFormats, List.mem_cons,
    List.not_mem_nil, or_false] at h ⊢
  tauto

theorem mem_image_family_of_mem_six {i : String}
    (h : i ∈ ["jpg", "jpeg", "png", "gif", "webp", "bmp"]) : i ∈ imageFamilyFormats := by
  simp only [imageFamilyFormats, supportedFormats, List.mem_cons,
    List.not_mem_nil, or_false] at h ⊢
  tauto

theorem dispatch_some_spec {i o : String} {p : Pipeline}
    (h : dispatch i o = some p) : specDispatchTable i o := by
  unfold dispatch at h
  split_ifs at h with h1 h2 h3 h4 h5 h6
  · exact Or.inr (Or.inr (Or.inl h1))
  · exact Or.inr (Or.inl ⟨mem_image_family_of_mem_five h2.1, h2.2⟩)
  · exact Or.inl ⟨mem_image_family_of_mem_six h3.1, h3.2⟩
  · exact Or.inr (Or.inr (Or.inr (Or.inl h4)))
  · exact Or.inr (Or.inr (Or.inr (Or.inr (Or.inl h5))))
  · exact Or.inr (Or.inr (Or.inr (Or.inr (Or.inr h6))))

theorem char_toNat_ofNat_of_valid {n : Nat} (h : n.isValidChar) :
    (Char.ofNat n).toNat = n := by
  simp [Char.ofNat, h, Char.ofNatAux, Char.toNat]
  rfl

theorem char_toLower_eq_dot_iff (c : Char) : c.toLower = '.' ↔ c = '.' := by
  have hdot : Char.toNat '.' = 46 := rfl
  unfold Char.toLower
  dsimp only
  split
  · next hc =>
    constructor
    · intro h
      have hv : (c.toNat + 32).isValidChar := Or.inl (by omega)
      have h46 := congrArg Char.toNat h
      rw [char_toNat_ofNat_of_valid hv, hdot] at h46
      omega
    · intro h
      subst h
      rw [hdot] at hc
      omega
  · exact Iff.rfl

theorem char_toLower_toLower (c : Char) : (Char.toLower c).toLower = c.toLower := by
  by_cases hc : c.toNat ≥ 65 ∧ c.toNat ≤ 90
  · have hv : (c.toNat + 32).isValidChar := Or.inl (by omega)
    have h1 : c.toLower = Char.ofNat (c.toNat + 32) := by
      unfold Char.toLower
      dsimp only
      rw [if_pos hc]
    rw [h1]
    unfold Char.toLower
    dsimp only
    rw [char_toNat_ofNat_of_valid hv, if_neg (by omega)]
  · have h1 : c.toLower = c := by
      unfold Char.toLower
      rw [if_neg hc]
    rw [h1, h1]

theorem splitChars_ne_nil (sep : Char) (l : List Char) : splitChars sep l ≠ [] := by
  induction l with
  | nil => simp [splitChars]
  | cons c cs ih =>
    simp only [splitChars]
    split
    · simp
    · split
      · simp
      · simp

theorem splitChars_map (f : Char → Char) (sep : Char)
    (hf : ∀ c, f c = sep ↔ c = sep) (l : List Char) :
    splitChars sep (l.map f) = (splitChars sep l).map (List.map f) := by
  induction l with
  | nil => rfl
  | cons c cs ih =>
    simp only [List.map_cons, splitChars]
    by_cases hc : c = sep
    · rw [if_pos ((hf c).mpr hc), if_pos hc, ih]
      simp
    · rw [if_neg (fun h => hc ((hf c).mp h)), if_neg hc, ih]
      obtain ⟨t, ts, ht⟩ : ∃ t ts, splitChars sep cs = t :: ts := by
        cases hsp : splitChars sep cs with
        | nil => exact absurd hsp (splitChars_ne_nil sep cs)
        | cons t ts => exact ⟨t, ts, rfl⟩
      rw [ht]
      simp

theorem splitChars_of_not_mem {sep : Char} {l : List Char} (h : sep ∉ l) :
    splitChars sep l = [l] := by
  induction l with
  | nil => rfl
  | cons c cs ih =>
    simp only [List.mem_cons, not_or] at h
    simp only [splitChars]
    rw [if_neg (fun hc => h.1 hc.symm), ih h.2]

theorem getLastD_map_ne_nil {α β : Type} (f : α → β) {l : List α} (h : l ≠ [])
    (d : β) (d' : α) : (l.map f).getLastD d = f (l.getLastD d') := by
  rw [List.getLastD_eq_getLast?, List.getLastD_eq_getLast?, List.getLast?_map]
  cases hl : l.getLast? with
  | none => exact absurd (List.getLast?_eq_none_iff.mp hl) h
  | some a => simp

theorem extensionChars_jsToLower (name : List Char) :
    extensionChars (jsToLower name) = extensionChars name := by
  unfold extensionChars jsToLower
  rw [splitChars_map Char.toLower '.' char_toLower_eq_dot_iff name]
  rw [getLastD_map_ne_nil (List.map Char.toLower) (splitChars_ne_nil '.' name) [] []]
  rw [List.map_map]
  exact List.map_congr_left (fun c _ => char_toLower_toLower c)

theorem extensionChars_of_no_dot {name : List Char} (h : '.' ∉ name) :
    extensionChars name = jsToLower name := by
  unfold extensionChars
  rw [splitChars_of_not_mem h]
  rfl

/-! ### Claim theorems -/

/-- C2, counterexample: for a 100×100 image the single page produced by
`convertImageToPdf` is sized 100×100 — the image's size — and not the
595×842 page bounding box the claim states. -/
theorem image_embed_page_size_counterexample :
    ((convertImageToPdf { width := some 100, height := some 100, format := some "png" }).pages.map
      (fun p => (p.width, p.height))) = [((100 : ℚ), (100 : ℚ))] ∧
    ((100 : ℚ), (100 : ℚ)) ≠ ((595 : ℚ), (842 : ℚ)) := by
  constructor
  · norm_num [convertImageToPdf, fittedSize, jsOr]
  · intro h
    exact absurd (congrArg Prod.fst h) (by norm_num)

/-- C2, amended: `convertImageToPdf` creates exactly one page, sized to
the (possibly scaled) image dimensions computed by `fittedSize` (which
falls back to the 595×842 box when metadata is absent), and draws the
image anchored at the page origin (0, 0) filling the page. -/
theorem image_embed_one_page_sized_to_image (meta : ImageMetadata) :
    (convertImageToPdf meta).pages.length = 1 ∧
    ((convertImageToPdf meta).pages.map fun p => (p.width, p.height))
      = [fittedSize meta.width meta.height] ∧
    ((convertImageToPdf meta).pages.map fun p => p.draws)
      = [[{ x := 0, y := 0, width := (fittedSize meta.width meta.height).1,
            height := (fittedSize meta.width meta.height).2 }]] :=
  ⟨rfl, rfl, rfl⟩

/-- C3: image-embed scaling — when both dimensions are present and
positive, sizes exceeding the 595×842 box are scaled uniformly by
`min (595/w) (842/h)` and sizes within the box are kept unscaled; an
absent dimension falls back to the full page dimension; the concrete
1000×2000 image is drawn at 421×842. -/
theorem image_embed_scaling :
    (∀ w h : ℚ, 0 < w → 0 < h →
      fittedSize (some w) (some h) =
        if 595 < w ∨ 842 < h then
          (w * min (595 / w) (842 / h), h * min (595 / w) (842 / h))
        else (w, h)) ∧
    (∀ w : ℚ, 0 < w → w ≤ 595 → fittedSize (some w) none = (w, 842)) ∧
    (∀ h : ℚ, 0 < h → h ≤ 842 → fittedSize none (some h) = (595, h)) ∧
    fittedSize none none = ((595 : ℚ), (842 : ℚ)) ∧
    fittedSize (some 1000) (some 2000) = ((421 : ℚ), (842 : ℚ)) := by
  refine ⟨?_, ?_, ?_, ?_, ?_⟩
  · intro w h hw hh
    unfold fittedSize
    dsimp only
    rw [show jsOr (some w) 595 = w by simp [jsOr, ne_of_gt hw],
      show jsOr (some h) 842 = h by simp [jsOr, ne_of_gt hh]]
  · intro w hw hle
    unfold fittedSize
    dsimp only
    rw [show jsOr (some w) 595 = w by simp [jsOr, ne_of_gt hw],
      show jsOr none (842 : ℚ) = 842 by rfl]
    rw [if_neg (by push_neg; exact ⟨hle, le_refl _⟩)]
  · intro h hh hle
    unfold fittedSize
    dsimp only
    rw [show jsOr (some h) 842 = h by simp [jsOr, ne_of_gt hh],
      show jsOr none (595 : ℚ) = 595 by rfl]
    rw [if_neg (by push_neg; exact ⟨le_refl _, hle⟩)]
  · norm_num [fittedSize, jsOr]
  · norm_num [fittedSize, jsOr, min_def]

/-- C3 witness: concrete instances of the scaling equations. -/
theorem image_embed_scaling_witness :
    fittedSize (some 100) (some 200) = ((100 : ℚ), (200 : ℚ)) ∧
    fittedSize (some 300) none = ((300 : ℚ), (842 : ℚ)) ∧
    fittedSize none (some 400) = ((595 : ℚ), (400 : ℚ)) := by
  refine ⟨?_, ?_, ?_⟩
  · have h := image_embed_scaling.1 100 200 (by norm_num) (by norm_num)
    rw [h]
    norm_num
  · exact image_embed_scaling.2.1 300 (by norm_num) (by norm_num)
  · exact image_embed_scaling.2.2.1 400 (by norm_num) (by norm_num)

/-- C4, counterexample: `bmp` is an image-family input the dispatcher
handles (it appears in the image-to-image branch), yet `bmp → pdf`
matches no branch: the dispatcher answers with the 400
unsupported-conversion error rather than the image-to-PDF pipeline. -/
theorem dispatch_bmp_pdf_counterexample :
    formatCategories "bmp" = some Family.image ∧
    dispatch "bmp" "png" = some Pipeline.imageToImage ∧
    dispatch "bmp" "pdf" = none ∧
    handleRequest "bmp" "pdf" (fun _ => Except.ok ())
      = ServerResponse.clientError (unsupportedMessage "bmp" "pdf") ∧
    (handleRequest "bmp" "pdf" (fun _ => Except.ok ())).status = 400 := by
  refine ⟨rfl, by decide, by decide, ?_, ?_⟩
  · rfl
  · rfl

/-- C4, amended: for the image-family input formats jpg, jpeg, png, gif
and webp with requested output pdf, the dispatcher selects the
image-to-PDF embed pipeline; the remaining dispatcher-handled
image-family input bmp is not matched for output pdf and fails with the
unsupported-conversion error instead. -/
theorem dispatch_image_inputs_to_pdf :
    dispatch "jpg" "pdf" = some Pipeline.imageToPdf ∧
    dispatch "jpeg" "pdf" = some Pipeline.imageToPdf ∧
    dispatch "png" "pdf" = some Pipeline.imageToPdf ∧
    dispatch "gif" "pdf" = some Pipeline.imageToPdf ∧
    dispatch "webp" "pdf" = some Pipeline.imageToPdf ∧
    dispatch "bmp" "pdf" = none := by
  refine ⟨by decide, by decide, by decide, by decide, by decide, by decide⟩

/-- C6: the classifier's available outputs for input `pdf` are exactly
the image formats together with the document formats other than `pdf`
itself; an input format outside the format-to-family mapping yields the
empty list. -/
theorem classifier_pdf_outputs :
    (getAvailableOutputFormats "pdf").toFinset =
      ({"jpg", "jpeg", "png", "gif", "bmp", "webp", "svg",
        "docx", "doc", "txt", "rtf"} : Finset String) ∧
    (∀ fmt : String, formatCategories fmt = none → getAvailableOutputFormats fmt = []) := by
  constructor
  · decide
  · intro fmt h
    simp [getAvailableOutputFormats, h]

/-- C6 witness: the unrecognized format `xyz` has no available outputs. -/
theorem classifier_pdf_outputs_witness :
    getAvailableOutputFormats "xyz" = [] :=
  classifier_pdf_outputs.2 "xyz" (by decide)

/-- C8, counterexample: `gif` is an image-family format, yet the client
does not convert it locally — `handleConvert` falls through to the
server fetch for it. -/
theorem client_gif_counterexample :
    formatCategories "gif" = some Family.image ∧
    clientRoute "gif" "png" = ClientAction.delegateToServer := by
  exact ⟨rfl, by decide⟩

/-- C8, amended: the client converts locally (no network call) exactly
for the input formats png, jpg and jpeg; every other input — including
the image-family formats gif, bmp, webp and svg — is delegated to the
server request boundary. -/
theorem client_local_iff_png_jpg_jpeg :
    ∀ inputFormat outputFormat : String,
      clientRoute inputFormat outputFormat ≠ ClientAction.delegateToServer ↔
        (inputFormat = "png" ∨ inputFormat = "jpg" ∨ inputFormat = "jpeg") := by
  intro i o
  unfold clientRoute
  by_cases h : i = "png" ∨ i = "jpg" ∨ i = "jpeg"
  · rw [if_pos h]
    by_cases ho : o = "pdf"
    · rw [if_pos ho]
      simp [h]
    · rw [if_neg ho]
      simp [h]
  · rw [if_neg h]
    simp [h]

/-- C9: `convertPdfToImage` never reads the input PDF bytes — any two
inputs give identical output for the same requested format — and the
output is always the blank white 595×842 page encoded per the requested
format (jpeg at quality 90 for jpg/jpeg, png for png). -/
theorem pdf_to_image_content_independent :
    (∀ (b1 b2 : List UInt8) (fmt : String),
      convertPdfToImage b1 fmt = convertPdfToImage b2 fmt) ∧
    (∀ b : List UInt8,
      convertPdfToImage b "jpg" =
        { width := 595, height := 842, background := (255, 255, 255),
          encoding := ImageEncoding.jpeg 90 } ∧
      convertPdfToImage b "jpeg" =
        { width := 595, height := 842, background := (255, 255, 255),
          encoding := ImageEncoding.jpeg 90 } ∧
      convertPdfToImage b "png" =
        { width := 595, height := 842, background := (255, 255, 255),
          encoding := ImageEncoding.png }) := by
  refine ⟨fun b1 b2 fmt => rfl, fun b => ⟨?_, ?_, ?_⟩⟩
  · simp [convertPdfToImage]
  · simp [convertPdfToImage]
  · simp [convertPdfToImage]

/-- C10: for every non-pdf document-family input format the classifier's
output list contains `pdf` twice — once surviving the same-family filter
and once appended unconditionally. -/
theorem document_outputs_pdf_twice :
    ∀ fmt : String, formatCategories fmt = some Family.document → fmt ≠ "pdf" →
      (getAvailableOutputFormats fmt).count "pdf" = 2 := by
  intro fmt hdoc hne
  rcases formatCategories_document_cases hdoc with h | h | h | h | h
  · exact absurd h hne
  all_goals subst h
  · decide
  · decide
  · decide
  · decide

/-- C10 witness: input `docx` lists `pdf` twice. -/
theorem document_outputs_pdf_twice_witness :
    (getAvailableOutputFormats "docx").count "pdf" = 2 :=
  document_outputs_pdf_twice "docx" (by decide) (by decide)

/-- C5: every format pair outside the spec's dispatch table is refused —
no pipeline is selected, the response is the 400 unsupported-conversion
error, and its message names both (uppercased) formats; when a pair does
dispatch and the pipeline throws, the response is the 500 error. -/
theorem dispatcher_unsupported_pairs :
    (∀ (i o : String) (run : Pipeline → Except String Unit),
      ¬ specDispatchTable i o →
        dispatch i o = none ∧
        handleRequest i o run = ServerResponse.clientError (unsupportedMessage i o) ∧
        (handleRequest i o run).status = 400 ∧
        mentions (unsupportedMessage i o) i.toUpper ∧
        mentions (unsupportedMessage i o) o.toUpper) ∧
    (∀ (i o : String) (p : Pipeline) (e : String),
      dispatch i o = some p →
        handleRequest i o (fun _ => Except.error e)
          = ServerResponse.serverError ("Conversion failed: " ++ e) ∧
        (handleRequest i o (fun _ => Except.error e)).status = 500) := by
  constructor
  · intro i o run hns
    have hd : dispatch i o = none := by
      cases hc : dispatch i o with
      | none => rfl
      | some p => exact absurd (dispatch_some_spec hc) hns
    have hh : handleRequest i o run = ServerResponse.clientError (unsupportedMessage i o) := by
      unfold handleRequest
      rw [hd]
    refine ⟨hd, hh, by rw [hh]; rfl, ?_, ?_⟩
    · exact ⟨"Conversion from ", " to " ++ (o.toUpper ++
        " is not supported yet. Currently supported: Image ↔ Image, Image ↔ PDF, DOCX → PDF/TXT, TXT → PDF"), rfl⟩
    · refine ⟨"Conversion from " ++ (i.toUpper ++ " to "),
        " is not supported yet. Currently supported: Image ↔ Image, Image ↔ PDF, DOCX → PDF/TXT, TXT → PDF", ?_⟩
      simp [unsupportedMessage, String.append_assoc]
  · intro i o p e hd
    have hh : handleRequest i o (fun _ => Except.error e)
        = ServerResponse.serverError ("Conversion failed: " ++ e) := by
      unfold handleRequest
      rw [hd]
    exact ⟨hh, by rw [hh]; rfl⟩

/-- C5 witness: `txt → docx` is not in the table and gets the 400
response; `txt → pdf` dispatches, and a throwing pipeline gets 500. -/
theorem dispatcher_unsupported_pairs_witness :
    dispatch "txt" "docx" = none ∧
    (handleRequest "txt" "docx" (fun _ => Except.ok ())).status = 400 ∧
    (handleRequest "txt" "pdf" (fun _ => Except.error "boom")).status = 500 := by
  have h1 := dispatcher_unsupported_pairs.1 "txt" "docx" (fun _ => Except.ok ()) (by decide)
  have h2 := dispatcher_unsupported_pairs.2 "txt" "pdf" Pipeline.txtToPdf "boom" (by decide)
  exact ⟨h1.1, h1.2.2.1, h2.2⟩

/-- C7, counterexample: the dotless filename `PNG` yields the (nonempty)
identifier `png` — the whole filename lowercased — and the classifier
lookup on it succeeds, against the claim that a dotless filename yields
an empty identifier and a failing lookup. -/
theorem extension_dotless_counterexample :
    ('.' ∉ ("PNG").toList) ∧
    getFileExtension ("PNG") = "png" ∧
    getFileExtension ("PNG") ≠ "" ∧
    getAvailableOutputFormats (getFileExtension ("PNG")) ≠ [] := by
  refine ⟨by decide, rfl, by decide, by decide⟩

/-- C7, amended: extraction lowercases the final dot-separated segment,
so it is case-insensitive; a filename with no dot yields the whole
lowercased filename as identifier (empty only for the empty filename),
and the classifier lookup fails exactly when the resulting identifier is
not in the format-to-family mapping. -/
theorem extension_lowercases_amended :
    (∀ name : List Char, extensionChars (jsToLower name) = extensionChars name) ∧
    (∀ name : List Char, '.' ∉ name → extensionChars name = jsToLower name) ∧
    (∀ fmt : String, getAvailableOutputFormats fmt = [] ↔ formatCategories fmt = none) :=
  ⟨extensionChars_jsToLower, fun _ h => extensionChars_of_no_dot h, gAOF_eq_nil_iff⟩

/-- C7 witness: the dotless filename `README` yields the identifier
`readme`. -/
theorem extension_lowercases_amended_witness :
    extensionChars (("README").toList) = ("readme").toList := by
  have h := extension_lowercases_amended.2.1 (("README").toList) (by decide)
  rw [h]
  decide

set_option maxRecDepth 8000 in
set_option maxHeartbeats 4000000 in
/-- C1: text-reflow pagination — a 51-line input yields exactly one
page and a 52-line input exactly two; in general the loop body allocates
a new page before drawing a line exactly when the cursor is below
`margin + lineHeight`, in which case the line is drawn on a fresh page
at the reset cursor `pageHeight - margin`, and otherwise the line is
drawn at the current cursor, which then drops by `lineHeight`. -/
theorem txt_reflow_pagination :
    (convertTxtToPdf (sampleText 51)).length = 1 ∧
    (convertTxtToPdf (sampleText 52)).length = 2 ∧
    (∀ (st : TxtState) (line : String),
      ((drawLine st line).pages = st.pages ↔ margin + lineHeight ≤ st.y) ∧
      (st.y < margin + lineHeight →
        (drawLine st line).pages = st.pages ++ [st.current] ∧
        (drawLine st line).current =
          [{ text := if line = "" then " " else line, x := margin,
             y := pageHeight - margin, size := fontSize }] ∧
        (drawLine st line).y = pageHeight - margin - lineHeight) ∧
      (margin + lineHeight ≤ st.y →
        (drawLine st line).current = st.current ++
          [{ text := if line = "" then " " else line, x := margin,
             y := st.y, size := fontSize }] ∧
        (drawLine st line).y = st.y - lineHeight)) := by
  refine ⟨?_, ?_, ?_⟩
  · have hsplit : (splitChars '\n' (sampleText 51).toList).map String.mk
        = List.replicate 51 "x" := by decide
    simp only [convertTxtToPdf]
    rw [hsplit]
    norm_num [List.replicate, drawLine, margin, lineHeight, fontSize, pageHeight]
  · have hsplit : (splitChars '\n' (sampleText 52).toList).map String.mk
        = List.replicate 52 "x" := by decide
    simp only [convertTxtToPdf]
    rw [hsplit]
    norm_num [List.replicate, drawLine, margin, lineHeight, fontSize, pageHeight]
  · intro st line
    refine ⟨?_, ?_, ?_⟩
    · by_cases h : st.y < margin + lineHeight
      · simp only [drawLine, if_pos h]
        constructor
        · intro heq
          have hlen := congrArg List.length heq
          simp at hlen
        · intro hle
          exact absurd h (not_lt.mpr hle)
      · simp only [drawLine, if_neg h]
        simpa using not_lt.mp h
    · intro h
      simp [drawLine, if_pos h]
    · intro h
      simp [drawLine, if_neg (not_lt.mpr h)]

/-- C1 witness: with the cursor at 50 (below `margin + lineHeight`), the
next line goes onto a fresh page, drawn at the reset cursor 792. -/
theorem txt_reflow_pagination_witness :
    (drawLine { pages := [], current := [], y := 50 } "hi").pages = [[]] ∧
    (drawLine { pages := [], current := [], y := 50 } "hi").current =
      [{ text := "hi", x := 50, y := 792, size := 12 }] := by
  have h := (txt_reflow_pagination.2.2 { pages := [], current := [], y := 50 } "hi").2.1
    (by norm_num [margin, lineHeight, fontSize])
  refine ⟨by simpa using h.1, ?_⟩
  have h2 := h.2.1
  rw [h2, if_neg (show ¬("hi" = "") from by decide)]
  norm_num [margin, pageHeight, fontSize]

end ConverterPro
